import Mathlib

/-!
Verification development for the `ipynb-scrubber` repository.

The Python sources embedded here:
  - `src/ipynb_scrubber/processor.py`  (directive scanner, cell classifier,
    cell transformer, document processor)
  - `src/ipynb_scrubber/config.py`     (`ScrubbingOptions`, `FileEntry`)

Python strings are modelled as Lean `String`; the handful of Python string
primitives the code uses (`strip`, `lstrip`, `startswith`, `removesuffix`,
`split(sep, 1)`, `split('\n')`, `in`, `''.join`) are implemented below by
structural recursion over the character list, so that every definition
evaluates inside the kernel.
-/

/-- Python `str.strip` / `str.lstrip` whitespace set (ASCII portion):
space, tab, newline, carriage return, vertical tab, form feed. -/
def pyIsSpace (c : Char) : Bool :=
  c = ' ' || c = '\t' || c = '\n' || c = '\r' || c = Char.ofNat 11 || c = Char.ofNat 12

def trimLeftC (l : List Char) : List Char := l.dropWhile pyIsSpace

def trimRightC (l : List Char) : List Char := (l.reverse.dropWhile pyIsSpace).reverse

/-- Python `s.lstrip()`. -/
def pyLStrip (s : String) : String := String.mk (trimLeftC s.data)

/-- Python `s.strip()`. -/
def pyStrip (s : String) : String := String.mk (trimRightC (trimLeftC s.data))

def isPrefixC : List Char → List Char → Bool
  | [], _ => true
  | _ :: _, [] => false
  | a :: as, b :: bs => a = b && isPrefixC as bs

/-- Python `s.startswith(pre)`. -/
def pyStartsWith (s pre : String) : Bool := isPrefixC pre.data s.data

/-- Python `s.endswith(suf)`. -/
def pyEndsWith (s suf : String) : Bool := isPrefixC suf.data.reverse s.data.reverse

/-- Python `s[n:]` (slicing a string from character index `n`). -/
def pyDrop (s : String) (n : Nat) : String := String.mk (s.data.drop n)

/-- Python `len(s)` (number of code points). -/
def pyLen (s : String) : Nat := s.data.length

/-- Python `s.removesuffix(suf)`. -/
def pyRemoveSuffix (s suf : String) : String :=
  if suf ≠ "" && pyEndsWith s suf then String.mk (s.data.take (s.data.length - suf.data.length))
  else s

/-- Split a character list at the first occurrence of the (non-empty)
separator `sep`: `some (before, after)` when `sep` occurs, else `none`. -/
def splitFirstC (sep : List Char) : List Char → Option (List Char × List Char)
  | [] => none
  | c :: rest =>
    if isPrefixC sep (c :: rest) then some ([], (c :: rest).drop sep.length)
    else
      match splitFirstC sep rest with
      | none => none
      | some (pre, post) => some (c :: pre, post)

/-- Python `sub in s` (for non-empty `sub`). -/
def pyContains (s sub : String) : Bool := (splitFirstC sub.data s.data).isSome

/-- Python `s.split(sep, 1)`: `(s, none)` when `sep` does not occur,
otherwise `(before, some after)` at the first occurrence. -/
def pySplit1 (s sep : String) : String × Option String :=
  match splitFirstC sep.data s.data with
  | none => (s, none)
  | some (a, b) => (String.mk a, some (String.mk b))

def splitLinesC : List Char → List (List Char)
  | [] => [[]]
  | c :: rest =>
    if c = '\n' then [] :: splitLinesC rest
    else
      match splitLinesC rest with
      | [] => [[c]]
      | l :: ls => (c :: l) :: ls

/-- Python `s.split('\n')`. -/
def pySplitLines (s : String) : List String := (splitLinesC s.data).map (fun l => String.mk l)

/-- Python `''.join(l)`. -/
def pyJoin (l : List String) : String := String.join l

/-! ## Data model (processor.py lines 8-20, notebook JSON shape)

A cell is a JSON object whose keys may each be absent; `Option` marks
presence of the key.  `source` is `str | list[str]`; `execution_count` is
`int | None` when present; the cell `metadata` mapping is modelled by the
single key the code ever reads, the `tags` list. -/

inductive SourceVal where
  | str (s : String)
  | list (l : List String)
deriving DecidableEq

structure CellMeta where
  tags : Option (List String)
deriving DecidableEq

structure Cell where
  cell_type : Option String
  source : Option SourceVal
  outputs : Option (List String)
  execution_count : Option (Option Int)
  metadata : Option CellMeta
deriving DecidableEq

/-- Notebook-level metadata mapping: an insertion-ordered dictionary from
string keys to JSON values (only booleans and strings are ever stored). -/
inductive MVal where
  | b (v : Bool)
  | s (v : String)
deriving DecidableEq

abbrev NbMeta := List (String × MVal)

/-- The notebook: the `cells` list plus the optional top-level `metadata`
mapping (the dictionary key may be absent, which `validate_notebook` never
checks).  The `nbformat` fields are never read or written by the code and
are elided. -/
structure Notebook where
  cells : List Cell
  metadata : Option NbMeta
deriving DecidableEq

/-- Python dict assignment `d[k] = v`: updates the value in place when the
key is present (keeping its position), otherwise appends the new entry. -/
def dictSet {α : Type} : List (String × α) → String → α → List (String × α)
  | [], k, v => [(k, v)]
  | (k0, v0) :: rest, k, v =>
    if k0 = k then (k, v) :: rest else (k0, v0) :: dictSet rest k v

/-- Python dict lookup `d.get(k)`. -/
def dictGet {α : Type} : List (String × α) → String → Option α
  | [], _ => none
  | (k0, v0) :: rest, k => if k0 = k then some v0 else dictGet rest k

/-- Modelled from the spec: the repository's `exceptions.py` module is not
under `src/` (only its importers are).  Per spec section 7 the error
taxonomy has a structural invalid-input error (`InvalidNotebookError`), a
processing failure (`ProcessingError`) and a configuration error
(`ScrubberError`); each carries a message. -/
inductive ScrubError where
  | invalidNotebook (msg : String)
  | processing (msg : String)
  | scrubber (msg : String)
deriving DecidableEq

/-- `cell.get('source', '')` followed by `''.join` normalization
(processor.py lines 67-69 and 299-301). -/
def getSource (cell : Cell) : String :=
  match cell.source with
  | none => ""
  | some (.str s) => s
  | some (.list l) => pyJoin l

/-- `cell.get('metadata', {}).get('tags', [])` (processor.py lines 136, 161). -/
def getTags (cell : Cell) : List String :=
  match cell.metadata with
  | none => []
  | some m => m.tags.getD []

/-! ## Directive Scanner (processor.py `get_option_value`, lines 23-87) -/

/-- The marker syntax chosen from the cell type (lines 55-65):
code cells use the prefix `#|`, markdown cells use `<!--` with the
trailing `-->` stripped, every other cell type is unsupported. -/
def markerFor : Option String → Option (String × String)
  | some t =>
    if t = "code" then some ("#|", "")
    else if t = "markdown" then some ("<!--", "-->")
    else none
  | none => none

/-- Loop body of lines 77-83, applied to the already-stripped
`option_part` of one marker line.  `none` means the line does not declare
`option`; `some v` means it does, with `v` the optional explicit value. -/
def lineVerdict (option optionPart : String) : Option (Option String) :=
  if pyContains optionPart ":" then
    match pySplit1 optionPart ":" with
    | (key, some value) => if pyStrip key = option then some (some (pyLStrip value)) else none
    | (_, none) => none
  else if optionPart = option then some none else none

/-- The scanning loop of lines 71-87: walk the lines, inspect marker lines,
skip blank lines, and stop at the first non-blank non-marker line. -/
def scanLines (startMarker endSuffix option : String) : List String → Bool × Option String
  | [] => (false, none)
  | line :: rest =>
    let trimmed := pyStrip line
    if pyStartsWith trimmed startMarker then
      let optionPart := pyStrip (pyRemoveSuffix (pyDrop trimmed (pyLen startMarker)) endSuffix)
      match lineVerdict option optionPart with
      | some v => (true, v)
      | none => scanLines startMarker endSuffix option rest
    else if trimmed ≠ "" then (false, none)
    else scanLines startMarker endSuffix option rest

/-- `get_option_value` (processor.py lines 23-87). -/
def get_option_value (cell : Cell) (option : String) : Bool × Option String :=
  match markerFor cell.cell_type with
  | none => (false, none)
  | some (startMarker, endSuffix) =>
    scanLines startMarker endSuffix option (pySplitLines (getSource cell))

/-! ## Validation (processor.py `validate_notebook`, lines 90-123).
The typed `Notebook` embedding makes the dict/list shape checks hold by
construction; what remains is the per-cell `cell_type` check. -/

def validateCells : Nat → List Cell → Except ScrubError Unit
  | _, [] => .ok ()
  | i, cell :: rest =>
    match cell.cell_type with
    | none =>
      .error (.invalidNotebook ( "Cell " ++ toString i ++ " is missing required cell_type field"))
    | some t =>
      if t = "code" || t = "markdown" || t = "raw" then validateCells (i + 1) rest
      else .error (.invalidNotebook ( "Cell " ++ toString i ++ " has invalid cell_type " ++ t))

def validate_notebook (nb : Notebook) : Except ScrubError Unit := validateCells 0 nb.cells

/-! ## Cell Classifier (processor.py lines 126-220) -/

/-- `should_omit_cell` (lines 126-138). -/
def should_omit_cell (cell : Cell) (omit_tag : String) : Bool :=
  decide (omit_tag ∈ getTags cell) || (get_option_value cell omit_tag).1

/-- `should_clear_cell` (lines 141-165). -/
def should_clear_cell (cell : Cell) (clear_tag : String) : Bool × Option String :=
  let inline :=
    if cell.cell_type = some "code" || cell.cell_type = some "markdown" then
      get_option_value cell clear_tag
    else (false, none)
  if inline.1 then (true, inline.2)
  else if decide (clear_tag ∈ getTags cell) then (true, none)
  else (false, none)

/-- Lines 202-210 of `should_note_cell`: parse the directive value into
`(note_id, replacement)` — split on the first literal " | " when present,
both parts stripped. -/
def noteParse (custom_text : String) : String × Option String :=
  if pyContains custom_text " | " then
    match pySplit1 custom_text " | " with
    | (p0, some p1) => (pyStrip p0, some (pyStrip p1))
    | (p0, none) => (pyStrip p0, (none : Option String))
  else (pyStrip custom_text, (none : Option String))

/-- `should_note_cell` (lines 168-220). -/
def should_note_cell (cell : Cell) (note_tag : String) :
    Bool × Option (String × Option String) :=
  if cell.cell_type ≠ some "code" then (false, none)
  else
    match get_option_value cell note_tag with
    | (true, some custom_text) =>
      let nr := noteParse custom_text
      if nr.1 = "" then (false, none) else (true, some (nr.1, nr.2))
    | (_, _) => (false, none)

/-! ## Options records -/

/-- `ScrubbingOptions` exactly as defined in config.py lines 57-72: the
three fields `clear_tag`, `clear_text`, `omit_tag` (there is no note-tag
field in that dataclass). -/
structure ScrubbingOptions where
  clear_tag : String
  clear_text : String
  omit_tag : String
deriving DecidableEq

/-- Modelled from the spec: the four-field resolved options record the
processor actually consumes.  config.py's `ScrubbingOptions` is missing the
`note_tag` field that processor.py reads (`options.note_tag`, line 293) and
cli.py supplies (`ScrubbingOptions(..., note_tag=args.note_tag)`, lines
149-154, default `scrub-note`); spec section 3 describes the record as four
tag names plus default replacement text, and the processor embedding below
is parameterized by this four-field record. -/
structure ScrubOptions where
  clear_tag : String
  clear_text : String
  omit_tag : String
  note_tag : String
deriving DecidableEq

/-- The command-line default options (cli.py lines 105-125). -/
def defaultOpts : ScrubOptions :=
  { clear_tag := "scrub-clear"
  , clear_text := "# TODO: Implement this"
  , omit_tag := "scrub-omit"
  , note_tag := "scrub-note" }

/-! ## Cell Transformer (processor.py `process_cell`, lines 223-259) -/

/-- Lines 238-240: `cell.pop('outputs', None); cell.pop('execution_count', None)`. -/
def stripExec (cell : Cell) : Cell := { cell with outputs := none, execution_count := none }

/-- `process_cell` (lines 223-259).  The Python function mutates the cell
dictionary in place and returns it; the embedding returns the new cell. -/
def process_cell (cell : Cell) (options : ScrubOptions)
    (note_info : Option (String × Option String)) : Cell :=
  let cell := stripExec cell
  match note_info with
  | some (note_id, replacement_text) =>
    let text_to_use := replacement_text.getD options.clear_text
    { cell with source := some (.str (text_to_use ++ "\n# (See notes: " ++ note_id ++ ")\n")) }
  | none =>
    match should_clear_cell cell options.clear_tag with
    | (true, custom_text) =>
      { cell with source := some (.str (custom_text.getD options.clear_text ++ "\n")) }
    | (false, _) => cell

/-! ## Document Processor (processor.py `process_notebook`, lines 262-317) -/

/-- The notes collection: a Python dict from note id to
`(cell_type, original content)`. -/
abbrev Notes := List (String × (String × String))

/-- The per-cell iteration loop of lines 287-310, threading the notes
dictionary and accumulating the processed cells. -/
def processCells (options : ScrubOptions) : List Cell → Notes → List Cell × Notes
  | [], notes => ([], notes)
  | cell :: rest, notes =>
    if should_omit_cell cell options.omit_tag then processCells options rest notes
    else
      match should_note_cell cell options.note_tag with
      | (true, some note_info) =>
        let captured := (cell.cell_type.getD "code", getSource cell)
        let result := processCells options rest (dictSet notes note_info.1 captured)
        (process_cell cell options (some note_info) :: result.1, result.2)
      | (_, _) =>
        let result := processCells options rest notes
        (process_cell cell options none :: result.1, result.2)

/-- `process_notebook` (lines 262-317).  The Python function mutates the
notebook in place: by the time line 313 can raise (the `notebook['metadata']`
lookup, a `KeyError` when the key is absent), line 312 has already replaced
the cell list the caller sees.  The embedding therefore pairs every error
with the notebook state visible to the caller when the exception
propagates. -/
def process_notebook (notebook : Notebook) (options : ScrubOptions) :
    Except (ScrubError × Notebook) (Notebook × Notes) :=
  match validate_notebook notebook with
  | .error e => .error (e, notebook)
  | .ok _ =>
    let result := processCells options notebook.cells []
    let nb := { notebook with cells := result.1 }
    match nb.metadata with
    | none => .error (.processing "Error processing notebook: metadata", nb)
    | some m =>
      .ok ({ nb with metadata := some (dictSet m "exercise_version" (.b true)) }, result.2)

/-! ## Layered configuration (config.py lines 57-107) -/

/-- A TOML table restricted to the string-valued keys the config code
reads. -/
abbrev ConfigDict := List (String × String)

/-- `ScrubbingOptions.from_dict` (config.py lines 65-72). -/
def ScrubbingOptions.from_dict (data : ConfigDict) : ScrubbingOptions :=
  { clear_tag := (dictGet data "clear-tag").getD "scrub-clear"
  , clear_text := (dictGet data "clear-text").getD "# TODO: Implement this"
  , omit_tag := (dictGet data "omit-tag").getD "scrub-omit" }

/-- `FileEntry` (config.py lines 75-99): per-file override record. -/
structure FileEntry where
  input : String
  output : String
  clear_tag : Option String
  clear_text : Option String
  omit_tag : Option String
deriving DecidableEq

/-- `FileEntry.from_dict` (config.py lines 85-99). -/
def FileEntry.from_dict (data : ConfigDict) : Except ScrubError FileEntry :=
  match dictGet data "input" with
  | none => .error (.scrubber "File entry missing required field: input")
  | some inp =>
    match dictGet data "output" with
    | none => .error (.scrubber "File entry missing required field: output")
    | some outp =>
      .ok { input := inp
          , output := outp
          , clear_tag := dictGet data "clear-tag"
          , clear_text := dictGet data "clear-text"
          , omit_tag := dictGet data "omit-tag" }

/-- Python `a or b` on an optional string override: the override wins
exactly when it is present and non-empty (`None` and `''` are falsy). -/
def pyOrStr (a : Option String) (b : String) : String :=
  match a with
  | none => b
  | some s => if s = "" then b else s

/-- `FileEntry.get_options` (config.py lines 101-107). -/
def FileEntry.get_options (self : FileEntry) (global_options : ScrubbingOptions) :
    ScrubbingOptions :=
  { clear_tag := pyOrStr self.clear_tag global_options.clear_tag
  , clear_text := pyOrStr self.clear_text global_options.clear_text
  , omit_tag := pyOrStr self.omit_tag global_options.omit_tag }

/-! ## Derived definitions used by the statements -/

/-- The source value `process_cell` leaves in the cell. -/
def clearedSource (cell : Cell) (options : ScrubOptions)
    (note_info : Option (String × Option String)) : Option SourceVal :=
  match note_info with
  | some (note_id, replacement_text) =>
    some (.str (replacement_text.getD options.clear_text ++ "\n# (See notes: " ++ note_id ++ ")\n"))
  | none =>
    match should_clear_cell cell options.clear_tag with
    | (true, ct) => some (.str (ct.getD options.clear_text ++ "\n"))
    | (false, _) => cell.source

/-- The transform applied to one surviving cell by the processor loop. -/
def transformCell (options : ScrubOptions) (cell : Cell) : Cell :=
  match should_note_cell cell options.note_tag with
  | (true, some note_info) => process_cell cell options (some note_info)
  | (_, _) => process_cell cell options none

/-! ## Spec-side definitions and concrete example data -/

/-- A code cell with the given source and nothing else, the shape used by
the spec's end-to-end scenarios. -/
def mkCodeCell (src : String) : Cell :=
  { cell_type := some "code", source := some (.str src), outputs := none
  , execution_count := none, metadata := none }

/-- Spec wording for the note identifier: the text before the first
occurrence of the literal separator " | ", trimmed (the whole value when
the separator is absent). -/
def noteIdOf (v : String) : String := pyStrip (pySplit1 v " | ").1

/-- Spec wording for the optional note replacement text: the text after
the first " | ", trimmed, when the separator occurs. -/
def noteReplOf (v : String) : Option String := ((pySplit1 v " | ").2).map pyStrip

/-- Spec wording for the layered-configuration merge of one field: the
override wins exactly when it is present and non-empty, otherwise the
global value is used. -/
def mergeField (override : Option String) (global : String) : String :=
  match override with
  | some s => if s ≠ "" then s else global
  | none => global

/-- A cell tagged with both the clear tag and the omit tag (spec precedence
example `tags=["scrub-clear","scrub-omit"]`). -/
def cellBothTags : Cell :=
  { cell_type := some "code", source := some (.str "answer = 42"), outputs := none
  , execution_count := none, metadata := some { tags := some ["scrub-clear", "scrub-omit"] } }

/-- Spec end-to-end scenario B: a noted code cell. -/
def noteCellB : Cell := mkCodeCell "#| scrub-note: ex1 | # CODE HERE\ndef f(): return 1"

/-- A code cell with recorded outputs and an execution count. -/
def cellC7 : Cell :=
  { cell_type := some "code", source := some (.str "x = secret()")
  , outputs := some ["out"], execution_count := some (some 3), metadata := none }

/-- A structurally valid notebook whose top-level metadata key is absent. -/
def nbC7 : Notebook := { cells := [cellC7], metadata := none }

/-- A cleared cell whose custom replacement text is itself a clear
directive, so the second transformer application clears it again. -/
def cellC9 : Cell := mkCodeCell "#| scrub-clear: #| scrub-clear: X"

/-- One-cell notebook with empty metadata, for the C6 witness. -/
def nbC6 : Notebook := { cells := [mkCodeCell "print(1)"], metadata := some [] }

/-- The processed version of `nbC6`. -/
def nbC6out : Notebook :=
  { cells := [mkCodeCell "print(1)"], metadata := some [("exercise_version", .b true)] }

/-- Empty-cells notebook with no metadata key, for the C10 witness. -/
def nbC10 : Notebook := { cells := [], metadata := none }

/-! ## Helper lemmas -/

example : pySplitLines "a\nb" = [ "a", "b"] := by decide
example : pySplitLines "" = [ ""] := by decide
example : pySplitLines "a\n" = [ "a", ""] := by decide
example : pyStrip "  x y  " = "x y" := by decide
example : pySplit1 "a:b:c" ":" = ( "a", some "b:c") := by decide
example : pySplit1 "abc" ":" = ( "abc", none) := by decide
example : pyRemoveSuffix "ab-->" "-->" = "ab" := by decide
example : pyRemoveSuffix "ab" "" = "ab" := by decide


/-- Stripping execution state changes neither the fields the clear
classifier reads. -/
lemma should_clear_cell_stripExec (c : Cell) (t : String) :
    should_clear_cell (stripExec c) t = should_clear_cell c t := by
  cases c; rfl

/-- `process_cell` in closed form: strip the execution state, substitute
the source. -/
lemma process_cell_eq (c : Cell) (o : ScrubOptions)
    (ni : Option (String × Option String)) :
    process_cell c o ni =
      { c with outputs := none, execution_count := none, source := clearedSource c o ni } := by
  cases ni with
  | some p => obtain ⟨id, r⟩ := p; cases c; rfl
  | none =>
    unfold process_cell
    simp only [should_clear_cell_stripExec]
    cases hsc : should_clear_cell c o.clear_tag with
    | mk b1 ct =>
      cases b1
      · cases c; simp [clearedSource, stripExec, hsc]
      · cases c; simp [clearedSource, stripExec, hsc]

/-- A cell with no execution state that the classifier does not mark to
clear is returned unchanged by `process_cell`. -/
lemma process_cell_id (c : Cell) (opts : ScrubOptions)
    (ho : c.outputs = none) (he : c.execution_count = none)
    (hc : (should_clear_cell c opts.clear_tag).1 = false) :
    process_cell c opts none = c := by
  obtain ⟨a, b, o2, e2, m2⟩ := c
  simp only at ho he
  subst ho he
  rw [process_cell_eq]
  rcases hsc : should_clear_cell (⟨a, b, none, none, m2⟩ : Cell) opts.clear_tag with ⟨b1, ct⟩
  rw [hsc] at hc
  simp only at hc
  subst hc
  simp [clearedSource, hsc]

/-- The processed cell list is exactly the non-omitted input cells,
transformed, in input order. -/
lemma processCells_fst (options : ScrubOptions) :
    ∀ (cells : List Cell) (notes : Notes),
      (processCells options cells notes).1 =
        (cells.filter (fun c => !should_omit_cell c options.omit_tag)).map
          (transformCell options) := by
  intro cells
  induction cells with
  | nil => intro notes; rfl
  | cons c rest ih =>
    intro notes
    cases h : should_omit_cell c options.omit_tag with
    | true => simp [processCells, h, List.filter_cons, ih]
    | false =>
      rcases hn : should_note_cell c options.note_tag with ⟨b1, oi⟩
      cases b1 <;> cases oi <;>
        simp [processCells, h, List.filter_cons, hn, transformCell, ih]

lemma length_filter_eq_iff {α : Type} (p : α → Bool) :
    ∀ l : List α, ((l.filter p).length = l.length) ↔ ∀ a ∈ l, p a := by
  intro l
  induction l with
  | nil => simp
  | cons x xs ih =>
    cases hx : p x with
    | true => simp [List.filter_cons, hx, ih]
    | false =>
      simp only [List.filter_cons, hx, Bool.false_eq_true, if_false, List.length_cons]
      constructor
      · intro h
        exfalso
        have hle := List.length_filter_le p xs
        omega
      · intro h
        exact absurd (h x (by simp)) (by simp [hx])

lemma dictGet_dictSet_self {α : Type} (m : List (String × α)) (k : String) (v : α) :
    dictGet (dictSet m k v) k = some v := by
  induction m with
  | nil => simp [dictSet, dictGet]
  | cons p rest ih =>
    obtain ⟨k0, v0⟩ := p
    by_cases h : k0 = k <;> simp [dictSet, dictGet, h, ih]

/-- Shape of a successful `process_notebook` run. -/
lemma process_notebook_ok_elim {nb : Notebook} {opts : ScrubOptions}
    {nb' : Notebook} {notes : Notes}
    (h : process_notebook nb opts = .ok (nb', notes)) :
    ∃ m, nb.metadata = some m ∧
      nb' = { cells := (processCells opts nb.cells []).1
            , metadata := some (dictSet m "exercise_version" (.b true)) } ∧
      notes = (processCells opts nb.cells []).2 := by
  unfold process_notebook at h
  cases hv : validate_notebook nb with
  | error e => rw [hv] at h; exact absurd h (by simp)
  | ok u =>
    rw [hv] at h
    obtain ⟨cells, meta⟩ := nb
    cases meta with
    | none => simp at h
    | some m =>
      simp only [Except.ok.injEq, Prod.mk.injEq] at h
      exact ⟨m, rfl, h.1.symm, h.2.symm⟩

/-- Shape of a failed `process_notebook` run on a structurally valid
notebook: the failure is the metadata lookup, the error is a
`ProcessingError`, and the caller-visible notebook already has its cell
list replaced. -/
lemma process_notebook_error_elim {nb : Notebook} {opts : ScrubOptions}
    {e : ScrubError} {nb' : Notebook}
    (hv : validate_notebook nb = .ok ())
    (h : process_notebook nb opts = .error (e, nb')) :
    e = .processing "Error processing notebook: metadata" ∧
    nb.metadata = none ∧
    nb' = { cells := (processCells opts nb.cells []).1, metadata := none } := by
  unfold process_notebook at h
  rw [hv] at h
  obtain ⟨cells, meta⟩ := nb
  cases meta with
  | none =>
    simp only [Except.error.injEq, Prod.mk.injEq] at h
    exact ⟨h.1.symm, rfl, h.2.symm⟩
  | some m => simp at h

/-! ## Claim theorems -/

/-- Claim C2: a cell classified omit (omit tag in the structural metadata
tags, or the omit directive declared inline) is dropped by the document
processor: processing the cell list starting at that cell equals processing
the remaining cells with the same notes state, so the cell is absent from
the output, untransformed, and captures no note, whatever clear or note
markings it also carries. -/
theorem C2_omit_drops_cell (opts : ScrubOptions) (cell : Cell) (rest : List Cell)
    (notes : Notes)
    (h : opts.omit_tag ∈ getTags cell ∨ (get_option_value cell opts.omit_tag).1 = true) :
    processCells opts (cell :: rest) notes = processCells opts rest notes := by
  have homit : should_omit_cell cell opts.omit_tag = true := by
    rcases h with h | h
    · simp [should_omit_cell, h]
    · simp [should_omit_cell, h]
  simp [processCells, homit]

/-- Witness for C2 at the spec's precedence example: a cell tagged with both
`scrub-clear` and `scrub-omit` is dropped, never cleared. -/
theorem C2_omit_drops_cell_witness :
    processCells defaultOpts (cellBothTags :: []) [] = processCells defaultOpts [] [] :=
  C2_omit_drops_cell defaultOpts cellBothTags [] [] (.inl (by decide))

/-- Claim C5: the cell transformer always removes the execution-state
fields; a noted cell's content becomes exactly the replacement (or the
default clear text) followed by the note reference line; a cleared
non-noted cell's content becomes exactly the explicit (or default) text
with a forced trailing newline; otherwise the content is unchanged. -/
theorem C5_transformer :
    (∀ (cell : Cell) (opts : ScrubOptions) (ni : Option (String × Option String)),
        (process_cell cell opts ni).outputs = none ∧
        (process_cell cell opts ni).execution_count = none)
    ∧ (∀ (cell : Cell) (opts : ScrubOptions) (id : String) (repl : Option String),
        (process_cell cell opts (some (id, repl))).source =
          some (.str (repl.getD opts.clear_text ++ "\n# (See notes: " ++ id ++ ")\n")))
    ∧ (∀ (cell : Cell) (opts : ScrubOptions) (ct : Option String),
        should_clear_cell cell opts.clear_tag = (true, ct) →
        (process_cell cell opts none).source =
          some (.str (ct.getD opts.clear_text ++ "\n")))
    ∧ (∀ (cell : Cell) (opts : ScrubOptions),
        (should_clear_cell cell opts.clear_tag).1 = false →
        (process_cell cell opts none).source = cell.source) := by
  refine ⟨?_, ?_, ?_, ?_⟩
  · intro cell opts ni
    rw [process_cell_eq]
    exact ⟨rfl, rfl⟩
  · intro cell opts id repl
    rw [process_cell_eq]
    rfl
  · intro cell opts ct h
    rw [process_cell_eq]
    simp [clearedSource, h]
  · intro cell opts h
    rw [process_cell_eq]
    rcases hsc : should_clear_cell cell opts.clear_tag with ⟨b1, ct⟩
    rw [hsc] at h
    simp only at h
    subst h
    simp [clearedSource, hsc]

/-- Witness for C5: clearing with explicit replacement text `X` yields
exactly `X` plus a forced newline. -/
theorem C5_transformer_witness :
    (process_cell (mkCodeCell "#| scrub-clear: X") defaultOpts none).source =
      some (.str ((some "X").getD defaultOpts.clear_text ++ "\n")) :=
  C5_transformer.2.2.1 (mkCodeCell "#| scrub-clear: X") defaultOpts (some "X") (by decide)

/-- Claim C9 fails on the code: the transformer is not idempotent.  The
counterexample is a cell whose custom clear text is itself a clear
directive; the first application rewrites the source to that directive,
and the second application clears it again to a different text. -/
theorem C9_counterexample :
    process_cell (process_cell cellC9 defaultOpts none) defaultOpts none ≠
      process_cell cellC9 defaultOpts none := by decide

/-- Claim C9 amended: re-applying the transformer strips nothing further
(execution state stays removed, cell type and metadata are untouched), and
it is the identity whenever the first result is not classified clear on
re-inspection; full idempotence fails only when the first result is
re-classified clear with different text. -/
theorem C9_amended :
    (∀ (cell : Cell) (opts : ScrubOptions) (ni : Option (String × Option String)),
        (process_cell (process_cell cell opts ni) opts none).outputs = none
        ∧ (process_cell (process_cell cell opts ni) opts none).execution_count = none
        ∧ (process_cell (process_cell cell opts ni) opts none).cell_type =
            (process_cell cell opts ni).cell_type
        ∧ (process_cell (process_cell cell opts ni) opts none).metadata =
            (process_cell cell opts ni).metadata)
    ∧ (∀ (cell : Cell) (opts : ScrubOptions),
        (should_clear_cell (process_cell cell opts none) opts.clear_tag).1 = false →
        process_cell (process_cell cell opts none) opts none =
          process_cell cell opts none) := by
  constructor
  · intro cell opts ni
    rw [process_cell_eq (process_cell cell opts ni)]
    exact ⟨rfl, rfl, rfl, rfl⟩
  · intro cell opts h
    refine process_cell_id (process_cell cell opts none) opts ?_ ?_ h
    · rw [process_cell_eq]
    · rw [process_cell_eq]

/-- Witness for C9 amended: a plain code cell is unchanged by a second
application. -/
theorem C9_amended_witness :
    process_cell (process_cell (mkCodeCell "print(1)") defaultOpts none) defaultOpts none =
      process_cell (mkCodeCell "print(1)") defaultOpts none :=
  C9_amended.2 (mkCodeCell "print(1)") defaultOpts (by decide)

/-- Claim C3: a cell is noted iff it is a code cell whose inline note
directive carries a value whose identifier (text before the first " | ",
trimmed) is non-empty; the noted pair is that identifier with the optional
trimmed replacement; a noted surviving cell records (original kind,
original pre-transform content) into the notes dictionary, keyed by the
identifier with Python-dict overwrite semantics (last write wins); every
other case (no value, blank identifier, non-code cell) is silently
not-noted. -/
theorem C3_note_semantics :
    (∀ (cell : Cell) (tag : String),
        should_note_cell cell tag =
          if cell.cell_type = some "code" then
            match get_option_value cell tag with
            | (true, some v) =>
              if noteIdOf v = "" then (false, none)
              else (true, some (noteIdOf v, noteReplOf v))
            | (_, _) => (false, none)
          else (false, none))
    ∧ (∀ (opts : ScrubOptions) (cell : Cell) (rest : List Cell) (notes : Notes)
          (id : String) (repl : Option String),
        should_omit_cell cell opts.omit_tag = false →
        should_note_cell cell opts.note_tag = (true, some (id, repl)) →
        processCells opts (cell :: rest) notes =
          (process_cell cell opts (some (id, repl)) ::
              (processCells opts rest
                (dictSet notes id (cell.cell_type.getD "code", getSource cell))).1,
            (processCells opts rest
              (dictSet notes id (cell.cell_type.getD "code", getSource cell))).2))
    ∧ (∀ (notes : Notes) (id : String) (v : String × String),
        dictGet (dictSet notes id v) id = some v) := by
  refine ⟨?_, ?_, ?_⟩
  · intro cell tag
    have hparse : ∀ v : String, noteParse v = (noteIdOf v, noteReplOf v) := by
      intro v
      unfold noteParse noteIdOf noteReplOf pyContains pySplit1
      cases hs : splitFirstC (" | ".data) v.data with
      | none => simp [hs]
      | some ab => obtain ⟨a, b⟩ := ab; simp [hs]
    unfold should_note_cell
    by_cases hct : cell.cell_type = some "code"
    · simp only [hct, ite_true, ne_eq, not_true_eq_false, ite_false]
      rcases hv : get_option_value cell tag with ⟨b1, ov⟩
      cases b1 with
      | false => cases ov <;> rfl
      | true =>
        cases ov with
        | none => rfl
        | some v => simp [hparse v]
    · simp [hct]
  · intro opts cell rest notes id repl homit hnote
    simp [processCells, homit, hnote]
  · intro notes id v
    exact dictGet_dictSet_self notes id v

/-- Witness for C3 at the spec's scenario B: the noted cell's original
source, not the replacement text, is captured under identifier `ex1`. -/
theorem C3_note_semantics_witness :
    processCells defaultOpts (noteCellB :: []) [] =
      (process_cell noteCellB defaultOpts (some ("ex1", some "# CODE HERE")) ::
          (processCells defaultOpts []
            (dictSet [] "ex1" (noteCellB.cell_type.getD "code", getSource noteCellB))).1,
        (processCells defaultOpts []
          (dictSet [] "ex1" (noteCellB.cell_type.getD "code", getSource noteCellB))).2) :=
  C3_note_semantics.2.1 defaultOpts noteCellB [] [] "ex1" (some "# CODE HERE")
    (by decide) (by decide)

/-- Claim C4: directive scanning only sees a contiguous leading block of
marker lines: anything after the first non-blank non-marker line is
irrelevant, blank lines are skipped without stopping the scan, the spec's
example `print(1)\n#| scrub-clear` declares nothing, and raw cells always
return not-declared. -/
theorem C4_leading_block :
    (∀ (sm es opt : String) (pre : List String) (stop : String) (post post' : List String),
        pyStrip stop ≠ "" →
        pyStartsWith (pyStrip stop) sm = false →
        scanLines sm es opt (pre ++ stop :: post) = scanLines sm es opt (pre ++ stop :: post'))
    ∧ (∀ (sm es opt blank : String) (rest : List String),
        sm ≠ "" →
        pyStrip blank = "" →
        scanLines sm es opt (blank :: rest) = scanLines sm es opt rest)
    ∧ get_option_value (mkCodeCell "print(1)\n#| scrub-clear") "scrub-clear" = (false, none)
    ∧ (∀ (cell : Cell) (opt : String), cell.cell_type = some "raw" →
        get_option_value cell opt = (false, none)) := by
  refine ⟨?_, ?_, by decide, ?_⟩
  · intro sm es opt pre stop post post' h1 h2
    induction pre with
    | nil =>
      simp only [List.nil_append, scanLines]
      simp [h1, h2]
    | cons p ps ih =>
      simp only [List.cons_append, scanLines, List.append_eq]
      rw [ih]
  · intro sm es opt blank rest hsm hblank
    obtain ⟨smd⟩ := sm
    cases smd with
    | nil => exact absurd rfl hsm
    | cons c cs =>
      simp [scanLines, hblank, pyStartsWith, isPrefixC]
  · intro cell opt h
    unfold get_option_value
    rw [h]
    rfl

/-- Witness for C4: the scanner ignores everything after the stopping line
`print(1)`, whatever follows it. -/
theorem C4_leading_block_witness :
    scanLines "#|" "" "scrub-clear" ("print(1)" :: ["#| scrub-clear"]) =
      scanLines "#|" "" "scrub-clear" ("print(1)" :: []) :=
  C4_leading_block.1 "#|" "" "scrub-clear" [] "print(1)" ["#| scrub-clear"] []
    (by decide) (by decide)

/-- Claim C6: a successful run produces exactly the non-omitted input
cells, transformed, in their input order; hence the output count is at
most the input count, with equality iff no cell is classified omit; and
the document metadata gains the boolean entry `exercise_version = true`. -/
theorem C6_document_shape (nb : Notebook) (opts : ScrubOptions) (nb' : Notebook)
    (notes : Notes)
    (h : process_notebook nb opts = .ok (nb', notes)) :
    nb'.cells =
      (nb.cells.filter (fun c => !should_omit_cell c opts.omit_tag)).map (transformCell opts)
    ∧ nb'.cells.length ≤ nb.cells.length
    ∧ (nb'.cells.length = nb.cells.length ↔
        ∀ c ∈ nb.cells, should_omit_cell c opts.omit_tag = false)
    ∧ ∃ m, nb'.metadata = some m ∧ dictGet m "exercise_version" = some (.b true) := by
  obtain ⟨m, hm, hnb', _⟩ := process_notebook_ok_elim h
  subst hnb'
  have hcells :
      (processCells opts nb.cells []).1 =
        (nb.cells.filter (fun c => !should_omit_cell c opts.omit_tag)).map
          (transformCell opts) := processCells_fst opts nb.cells []
  refine ⟨hcells, ?_, ?_, dictSet m "exercise_version" (.b true), rfl,
    dictGet_dictSet_self m "exercise_version" (.b true)⟩
  · simp only [hcells, List.length_map]
    exact List.length_filter_le _ _
  · simp only [hcells, List.length_map]
    rw [length_filter_eq_iff]
    constructor
    · intro hall c hc
      have := hall c hc
      simpa using this
    · intro hall c hc
      simp [hall c hc]

/-- Witness for C6 on a one-cell notebook with empty metadata. -/
theorem C6_document_shape_witness :
    nbC6out.cells =
      (nbC6.cells.filter (fun c => !should_omit_cell c defaultOpts.omit_tag)).map
        (transformCell defaultOpts)
    ∧ nbC6out.cells.length ≤ nbC6.cells.length
    ∧ (nbC6out.cells.length = nbC6.cells.length ↔
        ∀ c ∈ nbC6.cells, should_omit_cell c defaultOpts.omit_tag = false)
    ∧ ∃ m, nbC6out.metadata = some m ∧ dictGet m "exercise_version" = some (.b true) :=
  C6_document_shape nbC6 defaultOpts nbC6out [] (by rfl)

/-- Claim C7 fails on the code: on a valid notebook whose metadata key is
absent, `process_notebook` raises a ProcessingError, but the caller's
document is already modified when the error propagates — its cell list has
been replaced (here the cell's recorded outputs and execution count are
gone). -/
theorem C7_counterexample :
    process_notebook nbC7 defaultOpts =
      .error (.processing "Error processing notebook: metadata",
        { cells := [stripExec cellC7], metadata := none })
    ∧ ({ cells := [stripExec cellC7], metadata := none } : Notebook) ≠ nbC7 := by
  exact ⟨rfl, by decide⟩

/-- Claim C7 amended: any failure after successful validation is a
ProcessingError (never an InvalidNotebookError), and it happens exactly
when the metadata key is absent; but the document is not left unmodified:
the caller-visible notebook already carries the processed cell sequence
(only the metadata mapping is untouched). -/
theorem C7_amended (nb : Notebook) (opts : ScrubOptions) (e : ScrubError)
    (nb' : Notebook)
    (hv : validate_notebook nb = .ok ())
    (h : process_notebook nb opts = .error (e, nb')) :
    (∃ msg, e = .processing msg)
    ∧ nb.metadata = none
    ∧ nb'.metadata = nb.metadata
    ∧ nb'.cells =
        (nb.cells.filter (fun c => !should_omit_cell c opts.omit_tag)).map
          (transformCell opts) := by
  obtain ⟨he, hm, hnb'⟩ := process_notebook_error_elim hv h
  subst hnb'
  exact ⟨⟨_, he⟩, hm, by simp [hm], by simp [processCells_fst]⟩

/-- Witness for C7 amended at the concrete notebook `nbC7`. -/
theorem C7_amended_witness :
    (∃ msg, (ScrubError.processing "Error processing notebook: metadata") =
      .processing msg)
    ∧ nbC7.metadata = none
    ∧ ({ cells := [stripExec cellC7], metadata := none } : Notebook).metadata = nbC7.metadata
    ∧ ({ cells := [stripExec cellC7], metadata := none } : Notebook).cells =
        (nbC7.cells.filter (fun c => !should_omit_cell c defaultOpts.omit_tag)).map
          (transformCell defaultOpts) :=
  C7_amended nbC7 defaultOpts
    (.processing "Error processing notebook: metadata")
    { cells := [stripExec cellC7], metadata := none }
    (by rfl) (by rfl)

/-- Claim C10: validation never inspects the document-level metadata
mapping, and a notebook that passes validation but lacks the metadata key
makes `process_notebook` fail with a ProcessingError (the wrapped finalize
failure), not an InvalidNotebookError. -/
theorem C10_missing_metadata (nb : Notebook) (opts : ScrubOptions)
    (hv : validate_notebook nb = .ok ()) (hm : nb.metadata = none) :
    (∀ m, validate_notebook { nb with metadata := m } = validate_notebook nb)
    ∧ ∃ msg nb', process_notebook nb opts = .error (.processing msg, nb') := by
  refine ⟨fun m => rfl, "Error processing notebook: metadata",
    { cells := (processCells opts nb.cells []).1, metadata := none }, ?_⟩
  obtain ⟨cells, meta⟩ := nb
  simp only at hm
  subst hm
  unfold process_notebook
  rw [hv]

/-- Witness for C10 at the concrete notebook `nbC10`. -/
theorem C10_missing_metadata_witness :
    (∀ m, validate_notebook { nbC10 with metadata := m } = validate_notebook nbC10)
    ∧ ∃ msg nb', process_notebook nbC10 defaultOpts = .error (.processing msg, nb') :=
  C10_missing_metadata nbC10 defaultOpts (by rfl) (by rfl)

/-- Claim C1 evaluated against config.py: the merge of a per-file override
with the global record is field-by-field with the override winning exactly
when present and non-empty — but the record has only the three fields
`clear_tag`, `clear_text`, `omit_tag`.  The claimed fourth (note) tag does
not exist there: a `note-tag` key in the configuration data is silently
ignored by both `ScrubbingOptions.from_dict` and `FileEntry.from_dict`,
even though cli.py, processor.py and the test suite all rely on it. -/
theorem C1_options_merge :
    ScrubbingOptions.from_dict [("note-tag", "solution-note")] =
      ScrubbingOptions.from_dict []
    ∧ FileEntry.from_dict
        [("input", "nb.ipynb"), ("output", "out.ipynb"), ("note-tag", "solution-note")] =
      FileEntry.from_dict [("input", "nb.ipynb"), ("output", "out.ipynb")]
    ∧ (∀ (fe : FileEntry) (g : ScrubbingOptions),
        fe.get_options g =
          { clear_tag := mergeField fe.clear_tag g.clear_tag
          , clear_text := mergeField fe.clear_text g.clear_text
          , omit_tag := mergeField fe.omit_tag g.omit_tag }) := by
  refine ⟨rfl, rfl, ?_⟩
  intro fe g
  have hfield : ∀ (o : Option String) (b : String), pyOrStr o b = mergeField o b := by
    intro o b
    cases o with
    | none => rfl
    | some s =>
      by_cases hs : s = "" <;> simp [pyOrStr, mergeField, hs]
  unfold FileEntry.get_options
  rw [hfield, hfield, hfield]

/-- Claim C8: per candidate marker line, a remainder containing a colon is
split at the first colon into a trimmed directive name and a left-trimmed
value that keeps its trailing content verbatim; without a colon the whole
remainder is compared as a bare name; and the scanner's three outcomes —
not-declared, declared-with-default, declared-with-empty-value — are
pairwise distinct. -/
theorem C8_line_parse :
    (∀ (opt part : String), pyContains part ":" = true →
        lineVerdict opt part =
          if pyStrip (pySplit1 part ":").1 = opt
          then some (some (pyLStrip ((pySplit1 part ":").2.getD "")))
          else none)
    ∧ (∀ (opt part : String), pyContains part ":" = false →
        lineVerdict opt part = if part = opt then some none else none)
    ∧ get_option_value (mkCodeCell "#| scrub-clear:  a : b") "scrub-clear" =
        (true, some "a : b")
    ∧ get_option_value (mkCodeCell "x = 1") "scrub-clear" = (false, none)
    ∧ get_option_value (mkCodeCell "#| scrub-clear") "scrub-clear" = (true, none)
    ∧ get_option_value (mkCodeCell "#| scrub-clear:") "scrub-clear" = (true, some "")
    ∧ get_option_value (mkCodeCell "#| scrub-clear:") "scrub-clear" ≠
        get_option_value (mkCodeCell "#| scrub-clear") "scrub-clear"
    ∧ get_option_value (mkCodeCell "#| scrub-clear") "scrub-clear" ≠
        get_option_value (mkCodeCell "x = 1") "scrub-clear" := by
  refine ⟨?_, ?_, by decide, by decide, by decide, by decide, by decide, by decide⟩
  · intro opt part h
    unfold lineVerdict pySplit1
    cases hs : splitFirstC (":".data) part.data with
    | none =>
      exfalso
      unfold pyContains at h
      rw [hs] at h
      simp at h
    | some ab =>
      obtain ⟨a, b⟩ := ab
      have hc : pyContains part ":" = true := h
      simp [pyContains, hs, hc]
  · intro opt part h
    unfold lineVerdict
    rw [h]
    simp

/-- Witness for C8: the colon-split rule at the concrete remainder
`scrub-clear:  a : b`. -/
theorem C8_line_parse_witness :
    lineVerdict "scrub-clear" "scrub-clear:  a : b" =
      (if pyStrip (pySplit1 "scrub-clear:  a : b" ":").1 = "scrub-clear"
       then some (some (pyLStrip ((pySplit1 "scrub-clear:  a : b" ":").2.getD "")))
       else none) :=
  C8_line_parse.1 "scrub-clear" "scrub-clear:  a : b" (by decide)
